import Mathlib

/-!
# NeverYawn IoT appliance — verification of the alarm and messaging logic

Shallow embedding of the MicroPython sources of the NeverYawn air-quality
appliance.  Floats are modelled as rationals (the program only ever compares
and adds decimal constants), MicroPython `time.time()` timestamps as integers,
and the PWM buzzer as its duty value together with the module flags kept by
`aktor_steuerung.py`.  Exception outcomes of the network library are modelled
as an explicit environment input, matching the `except OSError` /
`except Exception` split in `mqtt_steuerung.py`.
-/

namespace NeverYawn

/-! ## Constants (main.py and aktor_steuerung.py) -/

/-- `NORMAL_ALARM_SPERRE_SEK` — cooldown for the normal alarm, seconds. -/
def NORMAL_ALARM_SPERRE_SEK : Int := 300

/-- `NORMAL_ALARM_AUSLOESE_ZAEHLER` — consecutive exceedances needed. -/
def NORMAL_ALARM_AUSLOESE_ZAEHLER : Nat := 2

/-- `SUMMER_DUTY_AN` — PWM duty for buzzer on. -/
def SUMMER_DUTY_AN : Nat := 512

/-- `SUMMER_DUTY_AUS` — PWM duty for buzzer off. -/
def SUMMER_DUTY_AUS : Nat := 0

/-! ## Data model -/

/-- Current thresholds (`aktuelle_*_schwelle` globals in main.py).
Temperature and humidity thresholds are floats, CO2/VOC thresholds become
ints after an MQTT update (`int(neue_co2)`). -/
structure Schwellwerte where
  temp : Rat
  feuchte : Rat
  co2 : Int
  voc : Int
  co2_kritisch : Int
  deriving Repr, DecidableEq

/-- The default thresholds `STANDARD_*` of main.py. -/
def standardSchwellen : Schwellwerte :=
  { temp := 30, feuchte := 60, co2 := 1500, voc := 1000, co2_kritisch := 2500 }

/-- One set of sensor readings as returned by `sensorik.lese_*` for a tick. -/
structure Messwerte where
  temp : Rat
  feuchte : Rat
  co2 : Int
  voc : Int
  deriving Repr, DecidableEq

/-- Alarm-engine state: the globals `kritischer_alarm_aktiv`,
`normal_alarm_sperre_bis` and `normal_alarm_zaehler` of main.py. -/
structure AlarmZustand where
  kritischer_alarm_aktiv : Bool
  normal_alarm_sperre_bis : Int
  normal_alarm_zaehler : Nat
  deriving Repr, DecidableEq

/-- Startup alarm state (globals initialised at module load). -/
def alarmStart : AlarmZustand :=
  { kritischer_alarm_aktiv := false, normal_alarm_sperre_bis := 0,
    normal_alarm_zaehler := 0 }

/-- Actuator-module state: `_ist_stummgeschaltet`, `_summer_ist_dauerhaft_an`
and the buzzer PWM duty currently driven (`_summer_pwm_objekt.duty(...)`).
The PWM objects are assumed initialised, as main.py does at startup. -/
structure AktorZustand where
  ist_stummgeschaltet : Bool
  summer_ist_dauerhaft_an : Bool
  summer_duty : Nat
  deriving Repr, DecidableEq

/-! ## aktor_steuerung.py -/

/-- `summer_stoppen()` — duty to off, continuous flag cleared (finally block). -/
def summer_stoppen (a : AktorZustand) : AktorZustand :=
  { a with summer_duty := SUMMER_DUTY_AUS, summer_ist_dauerhaft_an := false }

/-- `summer_starten(erzwingen=...)` — switch the buzzer continuously on.
Mute suppresses it (and stops the buzzer) unless forced; if already
continuously on and not forced, nothing happens. -/
def summer_starten (erzwingen : Bool) (a : AktorZustand) : AktorZustand :=
  if a.ist_stummgeschaltet && !erzwingen then summer_stoppen a
  else if a.summer_ist_dauerhaft_an && !erzwingen then a
  else { a with summer_duty := SUMMER_DUTY_AN, summer_ist_dauerhaft_an := true }

/-- `summer_kurz_piepen(erzwingen=...)` — short pulse.  Returns whether the
buzzer was actually driven; the pulse is transient (duty ends at off), so the
resulting state records duty off when driven and is unchanged otherwise. -/
def summer_kurz_piepen (erzwingen : Bool) (a : AktorZustand) :
    Bool × AktorZustand :=
  if a.ist_stummgeschaltet && !erzwingen then (false, a)
  else if a.summer_ist_dauerhaft_an then (false, a)
  else (true, { a with summer_duty := SUMMER_DUTY_AUS })

/-- `stumm_schalten(status)` — set the mute flag; when muting, also stop the
buzzer immediately. -/
def stumm_schalten (status : Bool) (a : AktorZustand) : AktorZustand :=
  let a1 := { a with ist_stummgeschaltet := status }
  if status then summer_stoppen a1 else a1

/-! ## main.py — the sensor tick (`sensoren_lesen_verarbeiten_senden`) -/

/-- Payload published on the sensor-data topic. -/
structure Nutzdaten where
  temperatur : Rat
  temperatur_status : Nat
  luftfeuchtigkeit : Rat
  luftfeuchtigkeit_status : Nat
  co2 : Int
  co2_status : Nat
  voc : Int
  voc_status : Nat
  deriving Repr, DecidableEq

/-- Observable side effects of one tick beyond the state updates. -/
structure TickAusgabe where
  /-- the normal-tier firing invoked `summer_kurz_piepen()` -/
  puls_aufgerufen : Bool
  /-- the pulse actually drove the buzzer (not muted, not continuously on) -/
  puls_getrieben : Bool
  /-- `servo_winken` was invoked -/
  servo_gewunken : Bool
  /-- `backlight_einschalten` was invoked -/
  display_geweckt : Bool
  /-- payload handed to `mqtt_senden`, if any -/
  gesendet : Option Nutzdaten
  deriving Repr, DecidableEq

/-- A tick that produces no side effect at all. -/
def keineAusgabe : TickAusgabe :=
  { puls_aufgerufen := false, puls_getrieben := false, servo_gewunken := false,
    display_geweckt := false, gesendet := none }

/-- `ist_temp_alarm` flag of main.py. -/
def ist_temp_alarm (s : Schwellwerte) (m : Messwerte) : Bool :=
  decide (m.temp > s.temp)

/-- `ist_feuchte_alarm` flag of main.py. -/
def ist_feuchte_alarm (s : Schwellwerte) (m : Messwerte) : Bool :=
  decide (m.feuchte > s.feuchte)

/-- `ist_co2_alarm` flag of main.py. -/
def ist_co2_alarm (s : Schwellwerte) (m : Messwerte) : Bool :=
  decide (m.co2 > s.co2)

/-- `ist_voc_alarm` flag of main.py. -/
def ist_voc_alarm (s : Schwellwerte) (m : Messwerte) : Bool :=
  decide (m.voc > s.voc)

/-- `ist_co2_kritisch` flag of main.py. -/
def ist_co2_kritisch (s : Schwellwerte) (m : Messwerte) : Bool :=
  decide (m.co2 > s.co2_kritisch)

/-- `soll_normal_alarm` — any normal threshold strictly exceeded. -/
def soll_normal_alarm (s : Schwellwerte) (m : Messwerte) : Bool :=
  ist_temp_alarm s m || ist_feuchte_alarm s m || ist_co2_alarm s m ||
    ist_voc_alarm s m

/-- The sentinel temperature `-99.9` returned by `lese_temperatur` on error. -/
def TEMP_FEHLERWERT : Rat := mkRat (-999) 10

/-- The reading is the AHT10 sentinel pair main.py skips the cycle on
(`temp == -99.9 or feuchte == -1`). -/
def ist_ungueltig (m : Messwerte) : Bool :=
  decide (m.temp = TEMP_FEHLERWERT) || decide (m.feuchte = -1)

/-- Section "1. Kritischer CO2-Alarm" of the tick.  Returns the updated
alarm state, actuator state, and whether the display was woken here. -/
def kritische_phase (s : Schwellwerte) (m : Messwerte) (jetzt : Int)
    (z : AlarmZustand) (a : AktorZustand) :
    AlarmZustand × AktorZustand × Bool :=
  if ist_co2_kritisch s m then
    let a1 := summer_starten true a
    if !z.kritischer_alarm_aktiv then
      ({ kritischer_alarm_aktiv := true, normal_alarm_zaehler := 0,
         normal_alarm_sperre_bis := 0 }, a1, true)
    else (z, a1, false)
  else
    if z.kritischer_alarm_aktiv then
      let a1 := summer_stoppen a
      if soll_normal_alarm s m then
        ({ kritischer_alarm_aktiv := false,
           normal_alarm_sperre_bis := jetzt + NORMAL_ALARM_SPERRE_SEK,
           normal_alarm_zaehler := 0 }, a1, false)
      else ({ z with kritischer_alarm_aktiv := false }, a1, false)
    else (z, a, false)

/-- Section "2. Normaler Alarm" of the tick.  Runs on the state left by the
critical phase; returns the final state, actuator state and the firing
flags (pulse invoked, pulse driven, servo, display wake). -/
def normale_phase (s : Schwellwerte) (m : Messwerte) (jetzt : Int)
    (z : AlarmZustand) (a : AktorZustand) :
    AlarmZustand × AktorZustand × (Bool × Bool × Bool × Bool) :=
  if !z.kritischer_alarm_aktiv then
    if soll_normal_alarm s m then
      let zaehler1 := z.normal_alarm_zaehler + 1
      if zaehler1 ≥ NORMAL_ALARM_AUSLOESE_ZAEHLER ∧
          jetzt > z.normal_alarm_sperre_bis then
        let pa := summer_kurz_piepen false a
        ({ kritischer_alarm_aktiv := z.kritischer_alarm_aktiv,
           normal_alarm_sperre_bis := jetzt + NORMAL_ALARM_SPERRE_SEK,
           normal_alarm_zaehler := 0 }, pa.2, (true, pa.1, true, true))
      else ({ z with normal_alarm_zaehler := zaehler1 }, a,
            (false, false, false, false))
    else
      let sperre1 : Int :=
        if z.normal_alarm_sperre_bis > 0 then 0 else z.normal_alarm_sperre_bis
      ({ z with normal_alarm_zaehler := 0, normal_alarm_sperre_bis := sperre1 },
       a, (false, false, false, false))
  else (z, a, (false, false, false, false))

/-- The MQTT payload built at the end of a valid tick. -/
def baueNutzdaten (s : Schwellwerte) (m : Messwerte) : Nutzdaten :=
  { temperatur := m.temp
    temperatur_status := if ist_temp_alarm s m then 1 else 0
    luftfeuchtigkeit := m.feuchte
    luftfeuchtigkeit_status := if ist_feuchte_alarm s m then 1 else 0
    co2 := m.co2
    co2_status :=
      if ist_co2_kritisch s m then 2 else if ist_co2_alarm s m then 1 else 0
    voc := m.voc
    voc_status := if ist_voc_alarm s m then 1 else 0 }

/-- `sensoren_lesen_verarbeiten_senden` — one sensor tick of main.py.
`jetzt` is `time.time()`, `mqttVerbunden` the result of
`mqtt_steuerung.mqtt_ist_verbunden()` at the publish step.  Invalid AHT10
readings skip the whole cycle. -/
def tick (s : Schwellwerte) (m : Messwerte) (jetzt : Int) (mqttVerbunden : Bool)
    (z : AlarmZustand) (a : AktorZustand) :
    AlarmZustand × AktorZustand × TickAusgabe :=
  if ist_ungueltig m then (z, a, keineAusgabe)
  else
    let kp := kritische_phase s m jetzt z a
    let np := normale_phase s m jetzt kp.1 kp.2.1
    ( np.1, np.2.1,
      { puls_aufgerufen := np.2.2.1
        puls_getrieben := np.2.2.2.1
        servo_gewunken := np.2.2.2.2.1
        display_geweckt := kp.2.2 || np.2.2.2.2.2
        gesendet := if mqttVerbunden then some (baueNutzdaten s m) else none } )

/-! ## main.py — MQTT callback `mqtt_befehl_empfangen` -/

/-- A decoded JSON value as far as the threshold handler inspects it:
either a number (`isinstance(x, (int, float))` passes) or anything else. -/
inductive JWert where
  | zahl (q : Rat)
  | andere
  deriving Repr, DecidableEq

/-- The fields the threshold-topic handler reads via `daten.get(...)`;
`none` models a missing key. -/
structure SchwellenNachricht where
  schwelle_temp : Option JWert
  schwelle_hum : Option JWert
  schwelle_CO2 : Option JWert
  schwelle_VOC : Option JWert
  deriving Repr, DecidableEq

/-- The number carried by a field, if the field is present and numeric. -/
def alsZahl : Option JWert → Option Rat
  | some (JWert.zahl q) => some q
  | _ => none

/-- The threshold-topic branch of `mqtt_befehl_empfangen`: each field is
checked independently (`isinstance` plus its range test) and accepted on its
own; `int(...)` truncation of an accepted positive number is `Rat.floor`. -/
def verarbeite_schwellen (n : SchwellenNachricht) (s : Schwellwerte) :
    Schwellwerte :=
  let s1 := match alsZahl n.schwelle_temp with
    | some q => { s with temp := q }
    | none => s
  let s2 := match alsZahl n.schwelle_hum with
    | some q => if 0 ≤ q ∧ q ≤ 100 then { s1 with feuchte := q } else s1
    | none => s1
  let s3 := match alsZahl n.schwelle_CO2 with
    | some q => if 0 < q then { s2 with co2 := Rat.floor q } else s2
    | none => s2
  match alsZahl n.schwelle_VOC with
    | some q => if 0 ≤ q then { s3 with voc := Rat.floor q } else s3
    | none => s3

/-- A decoded device-control message (`command` / `status` / `action` keys,
`none` when the key is missing). -/
structure Steuerbefehl where
  command : Option String
  status : Option String
  action : Option String
  deriving Repr, DecidableEq

/-- The device-control branch of `mqtt_befehl_empfangen`.  Takes the current
`kritischer_alarm_aktiv` flag and actuator state; returns the new flag, the
new actuator state and whether `servo_winken` was triggered. -/
def verarbeite_steuerung (b : Steuerbefehl) (kritisch : Bool)
    (a : AktorZustand) : Bool × AktorZustand × Bool :=
  if b.command = some "MUTE" then
    let mute_aktiv := decide (b.status = some "ON")
    let a1 := stumm_schalten mute_aktiv a
    (if mute_aktiv then false else kritisch, a1, false)
  else if b.command = some "FLAG" ∧ b.action = some "WAVE" then
    (kritisch, a, true)
  else if b.command = some "BUZZER" then
    if b.status = some "ON" then (kritisch, summer_starten false a, false)
    else if b.status = some "OFF" then (false, summer_stoppen a, false)
    else (kritisch, a, false)
  else (kritisch, a, false)

/-! ## mqtt_steuerung.py — send and inbound poll -/

/-- Outcome of a call into the umqttsimple library, matching the handler
split `except OSError` versus `except Exception`. -/
inductive UebertragungsErgebnis where
  | ok
  | osFehler
  | andererFehler
  deriving Repr, DecidableEq

/-- Module state of mqtt_steuerung.py: `mqtt_verbunden` and whether
`mqtt_client` is not `None`. -/
structure MqttZustand where
  mqtt_verbunden : Bool
  mqtt_client : Bool
  deriving Repr, DecidableEq

/-- `mqtt_ist_verbunden()`. -/
def mqtt_ist_verbunden (s : MqttZustand) : Bool := s.mqtt_verbunden

/-- `mqtt_senden(payload, ...)` — needs a connection; an `OSError` from
`publish` drops `mqtt_verbunden` and the client; any other exception is
caught and only makes the call return `False`.  The function itself never
propagates an exception (both handlers return normally). -/
def mqtt_senden (erg : UebertragungsErgebnis) (s : MqttZustand) :
    Bool × MqttZustand :=
  if !s.mqtt_verbunden || !s.mqtt_client then (false, s)
  else
    match erg with
    | .ok => (true, s)
    | .osFehler => (false, { mqtt_verbunden := false, mqtt_client := false })
    | .andererFehler => (false, s)

/-- `mqtt_nachrichten_pruefen()` — `check_msg` poll; `OSError` drops the
connection state, any other exception is caught and leaves it unchanged. -/
def mqtt_nachrichten_pruefen (erg : UebertragungsErgebnis) (s : MqttZustand) :
    MqttZustand :=
  if !s.mqtt_verbunden || !s.mqtt_client then s
  else
    match erg with
    | .ok => s
    | .osFehler => { mqtt_verbunden := false, mqtt_client := false }
    | .andererFehler => s

/-! ## sensorik.py — CCS811 cache -/

/-- The cached last-valid CCS811 values (`_letzter_co2_wert`,
`_letzter_voc_wert`). -/
structure CcsSpeicher where
  letzter_co2_wert : Int
  letzter_voc_wert : Int
  deriving Repr, DecidableEq

/-- Start values of the cache (400 ppm, 0 ppb). -/
def ccsStart : CcsSpeicher := { letzter_co2_wert := 400, letzter_voc_wert := 0 }

/-- `_aktualisiere_ccs_daten()` — `probe` is `some (eCO2, tVOC)` when the
sensor is present, `data_ready()` holds and the I2C read succeeds, otherwise
`none` (sensor missing, no fresh data, or an exception, all of which leave
the cache untouched).  A fresh sample is taken over only when
`400 <= co2 <= 8000 and 0 <= voc`. -/
def aktualisiere_ccs_daten (probe : Option (Int × Int)) (s : CcsSpeicher) :
    CcsSpeicher :=
  match probe with
  | none => s
  | some (c, v) =>
      if 400 ≤ c ∧ c ≤ 8000 ∧ 0 ≤ v then
        { letzter_co2_wert := c, letzter_voc_wert := v }
      else s

/-- `lese_co2()` — refresh the cache, then return the cached CO2 value. -/
def lese_co2 (probe : Option (Int × Int)) (s : CcsSpeicher) :
    Int × CcsSpeicher :=
  let s1 := aktualisiere_ccs_daten probe s
  (s1.letzter_co2_wert, s1)

/-- `lese_voc()` — return the cached VOC value (refresh already done). -/
def lese_voc (s : CcsSpeicher) : Int := s.letzter_voc_wert

/-- Cache state after a whole sequence of CCS811 update opportunities. -/
def ccs_lauf (probes : List (Option (Int × Int))) (s : CcsSpeicher) :
    CcsSpeicher :=
  match probes with
  | [] => s
  | p :: rest => ccs_lauf rest (aktualisiere_ccs_daten p s)

/-! ## Tick sequences -/

/-- Run `tick` over a list of `(now, reading)` pairs, collecting outputs. -/
def tick_lauf (s : Schwellwerte) (mqttVerbunden : Bool)
    (eingaben : List (Int × Messwerte)) (z : AlarmZustand) (a : AktorZustand) :
    AlarmZustand × AktorZustand × List TickAusgabe :=
  match eingaben with
  | [] => (z, a, [])
  | (jetzt, m) :: rest =>
      let r := tick s m jetzt mqttVerbunden z a
      let rr := tick_lauf s mqttVerbunden rest r.1 r.2.1
      (rr.1, rr.2.1, r.2.2 :: rr.2.2)

/-! ## Basic lemmas about the actuator functions -/

theorem summer_starten_erzwungen (a : AktorZustand) :
    summer_starten true a =
      { a with summer_duty := SUMMER_DUTY_AN, summer_ist_dauerhaft_an := true } := by
  simp [summer_starten]

theorem stumm_schalten_ein (a : AktorZustand) :
    stumm_schalten true a =
      { ist_stummgeschaltet := true, summer_ist_dauerhaft_an := false,
        summer_duty := SUMMER_DUTY_AUS } := by
  simp [stumm_schalten, summer_stoppen]

/-! ## Claim theorems -/

/-- C5: a tick whose reading carries the AHT10 sentinel temperature `-99.9`
or sentinel humidity `-1` is skipped entirely: alarm state, actuator state
are unchanged and no side effect or publish happens. -/
theorem C5_ungueltige_messung_ueberspringt
    (s : Schwellwerte) (m : Messwerte) (jetzt : Int) (mv : Bool)
    (z : AlarmZustand) (a : AktorZustand)
    (h : m.temp = TEMP_FEHLERWERT ∨ m.feuchte = -1) :
    tick s m jetzt mv z a = (z, a, keineAusgabe) := by
  have hv : ist_ungueltig m = true := by
    rcases h with h | h <;> simp [ist_ungueltig, h]
  simp [tick, hv]

/-- Witness for C5 at a concrete sentinel reading. -/
theorem C5_zeuge :
    tick standardSchwellen
        { temp := TEMP_FEHLERWERT, feuchte := 50, co2 := 1000, voc := 100 } 7 true
        { kritischer_alarm_aktiv := false, normal_alarm_sperre_bis := 0,
          normal_alarm_zaehler := 1 }
        { ist_stummgeschaltet := false, summer_ist_dauerhaft_an := false,
          summer_duty := 0 } =
      ({ kritischer_alarm_aktiv := false, normal_alarm_sperre_bis := 0,
         normal_alarm_zaehler := 1 },
       { ist_stummgeschaltet := false, summer_ist_dauerhaft_an := false,
         summer_duty := 0 }, keineAusgabe) :=
  C5_ungueltige_messung_ueberspringt standardSchwellen
    { temp := TEMP_FEHLERWERT, feuchte := 50, co2 := 1000, voc := 100 } 7 true
    { kritischer_alarm_aktiv := false, normal_alarm_sperre_bis := 0,
      normal_alarm_zaehler := 1 }
    { ist_stummgeschaltet := false, summer_ist_dauerhaft_an := false,
      summer_duty := 0 } (Or.inl rfl)

/-- C3: on every valid tick with `co2 > co2_critical_threshold` the buzzer is
forced on (duty 512, continuous flag set) no matter what the mute flag or the
previous buzzer state is, `critical_active` holds afterwards, on entry
(previously inactive) the strike counter and cooldown are zeroed and the
display is woken, and re-asserting the forced start on an already-on buzzer
changes nothing. -/
theorem C3_kritisch_erzwingt_summer
    (s : Schwellwerte) (m : Messwerte) (jetzt : Int) (mv : Bool)
    (z : AlarmZustand) (a : AktorZustand)
    (hval : ist_ungueltig m = false)
    (hcrit : m.co2 > s.co2_kritisch) :
    (tick s m jetzt mv z a).2.1.summer_duty = SUMMER_DUTY_AN ∧
    (tick s m jetzt mv z a).2.1.summer_ist_dauerhaft_an = true ∧
    (tick s m jetzt mv z a).1.kritischer_alarm_aktiv = true ∧
    (z.kritischer_alarm_aktiv = false →
      (tick s m jetzt mv z a).1.normal_alarm_zaehler = 0 ∧
      (tick s m jetzt mv z a).1.normal_alarm_sperre_bis = 0 ∧
      (tick s m jetzt mv z a).2.2.display_geweckt = true) ∧
    summer_starten true (summer_starten true a) = summer_starten true a := by
  have hk : ist_co2_kritisch s m = true := by
    simp [ist_co2_kritisch]
    omega
  cases hz : z.kritischer_alarm_aktiv <;>
    simp [tick, hval, kritische_phase, hk, hz, normale_phase,
      summer_starten, summer_stoppen]

/-- Witness for C3: critical CO2 reading while muted, buzzer previously off,
critical previously inactive. -/
theorem C3_zeuge :
    (tick standardSchwellen
        { temp := 20, feuchte := 50, co2 := 2600, voc := 100 } 50 false
        alarmStart
        { ist_stummgeschaltet := true, summer_ist_dauerhaft_an := false,
          summer_duty := 0 }).2.1.summer_duty = SUMMER_DUTY_AN ∧
    (tick standardSchwellen
        { temp := 20, feuchte := 50, co2 := 2600, voc := 100 } 50 false
        alarmStart
        { ist_stummgeschaltet := true, summer_ist_dauerhaft_an := false,
          summer_duty := 0 }).1.kritischer_alarm_aktiv = true := by
  have h := C3_kritisch_erzwingt_summer standardSchwellen
    { temp := 20, feuchte := 50, co2 := 2600, voc := 100 } 50 false
    alarmStart
    { ist_stummgeschaltet := true, summer_ist_dauerhaft_an := false,
      summer_duty := 0 } (by decide) (by decide)
  exact ⟨h.1, h.2.2.1⟩

/-- C1: on a valid tick with `co2 <= co2_critical_threshold` while the
critical alarm is latched, the engine stops the buzzer and clears the latch;
when some normal threshold is still strictly exceeded it arms the cooldown
`now + COOLDOWN` and restarts the strike counter from 0 (whatever its prior
value, the counter afterwards is the single increment 1 < 2 of this tick),
and no normal-tier pulse or wave fires on this transition tick. -/
theorem C1_kritisch_austritt
    (s : Schwellwerte) (m : Messwerte) (jetzt : Int) (mv : Bool)
    (z : AlarmZustand) (a : AktorZustand)
    (hval : ist_ungueltig m = false)
    (hkrit : z.kritischer_alarm_aktiv = true)
    (hco2 : m.co2 ≤ s.co2_kritisch) :
    (tick s m jetzt mv z a).1.kritischer_alarm_aktiv = false ∧
    (tick s m jetzt mv z a).2.1.summer_duty = SUMMER_DUTY_AUS ∧
    (tick s m jetzt mv z a).2.1.summer_ist_dauerhaft_an = false ∧
    (tick s m jetzt mv z a).2.2.puls_aufgerufen = false ∧
    (tick s m jetzt mv z a).2.2.servo_gewunken = false ∧
    (soll_normal_alarm s m = true →
      (tick s m jetzt mv z a).1.normal_alarm_sperre_bis =
        jetzt + NORMAL_ALARM_SPERRE_SEK ∧
      (tick s m jetzt mv z a).1.normal_alarm_zaehler = 1) ∧
    (soll_normal_alarm s m = false →
      (tick s m jetzt mv z a).1.normal_alarm_zaehler = 0) := by
  have hk : ist_co2_kritisch s m = false := by
    simp [ist_co2_kritisch]
    omega
  cases hn : soll_normal_alarm s m <;>
    simp [tick, hval, kritische_phase, hk, hkrit, hn, normale_phase,
      summer_stoppen, NORMAL_ALARM_AUSLOESE_ZAEHLER]

/-- Witness for C1: critical latch active, CO2 back at 2000 while the
temperature still exceeds its threshold. -/
theorem C1_zeuge :
    (tick standardSchwellen
        { temp := 31, feuchte := 50, co2 := 2000, voc := 100 } 1000 false
        { kritischer_alarm_aktiv := true, normal_alarm_sperre_bis := 0,
          normal_alarm_zaehler := 5 }
        { ist_stummgeschaltet := false, summer_ist_dauerhaft_an := true,
          summer_duty := 512 }).1.kritischer_alarm_aktiv = false ∧
    (tick standardSchwellen
        { temp := 31, feuchte := 50, co2 := 2000, voc := 100 } 1000 false
        { kritischer_alarm_aktiv := true, normal_alarm_sperre_bis := 0,
          normal_alarm_zaehler := 5 }
        { ist_stummgeschaltet := false, summer_ist_dauerhaft_an := true,
          summer_duty := 512 }).2.1.summer_duty = SUMMER_DUTY_AUS ∧
    (tick standardSchwellen
        { temp := 31, feuchte := 50, co2 := 2000, voc := 100 } 1000 false
        { kritischer_alarm_aktiv := true, normal_alarm_sperre_bis := 0,
          normal_alarm_zaehler := 5 }
        { ist_stummgeschaltet := false, summer_ist_dauerhaft_an := true,
          summer_duty := 512 }).1.normal_alarm_sperre_bis =
      1000 + NORMAL_ALARM_SPERRE_SEK := by
  have h := C1_kritisch_austritt standardSchwellen
    { temp := 31, feuchte := 50, co2 := 2000, voc := 100 } 1000 false
    { kritischer_alarm_aktiv := true, normal_alarm_sperre_bis := 0,
      normal_alarm_zaehler := 5 }
    { ist_stummgeschaltet := false, summer_ist_dauerhaft_an := true,
      summer_duty := 512 } (by decide) rfl (by decide)
  exact ⟨h.1, h.2.1, (h.2.2.2.2.2.1 (by decide)).1⟩

/-- A valid, non-critical, exceeding tick inside the cooldown window only
counts the strike: no firing, no actuator change, cooldown kept. -/
theorem tick_sperre_unterdrueckt
    (s : Schwellwerte) (m : Messwerte) (jetzt : Int) (mv : Bool)
    (z : AlarmZustand) (a : AktorZustand)
    (hval : ist_ungueltig m = false)
    (hsoll : soll_normal_alarm s m = true)
    (hnk : ist_co2_kritisch s m = false)
    (hz : z.kritischer_alarm_aktiv = false)
    (ht : jetzt ≤ z.normal_alarm_sperre_bis) :
    tick s m jetzt mv z a =
      ({ z with normal_alarm_zaehler := z.normal_alarm_zaehler + 1 }, a,
       { keineAusgabe with
         gesendet := if mv then some (baueNutzdaten s m) else none }) := by
  have hcond : ¬(z.normal_alarm_zaehler + 1 ≥ NORMAL_ALARM_AUSLOESE_ZAEHLER ∧
      jetzt > z.normal_alarm_sperre_bis) := by
    intro hc
    omega
  simp [tick, hval, kritische_phase, hnk, hz, normale_phase, hsoll, hcond,
    keineAusgabe]

/-- Over a whole run of valid, exceeding, non-critical ticks whose times all
lie inside the current cooldown window, no normal-tier firing ever happens,
the actuators are untouched, the window endures, and the critical latch
stays clear. -/
theorem tick_lauf_sperre_unterdrueckt
    (s : Schwellwerte) (mv : Bool) (eingaben : List (Int × Messwerte))
    (z : AlarmZustand) (a : AktorZustand)
    (hz : z.kritischer_alarm_aktiv = false)
    (hin : ∀ p ∈ eingaben, ist_ungueltig p.2 = false ∧
      soll_normal_alarm s p.2 = true ∧ ist_co2_kritisch s p.2 = false ∧
      p.1 ≤ z.normal_alarm_sperre_bis) :
    (tick_lauf s mv eingaben z a).1.kritischer_alarm_aktiv = false ∧
    (tick_lauf s mv eingaben z a).1.normal_alarm_sperre_bis =
      z.normal_alarm_sperre_bis ∧
    (tick_lauf s mv eingaben z a).2.1 = a ∧
    ∀ o ∈ (tick_lauf s mv eingaben z a).2.2,
      o.puls_aufgerufen = false ∧ o.servo_gewunken = false := by
  induction eingaben generalizing z with
  | nil => simpa [tick_lauf] using hz
  | cons p rest ih =>
      obtain ⟨hval, hsoll, hnk, ht⟩ := hin p (List.mem_cons_self p rest)
      have hstep := tick_sperre_unterdrueckt s p.2 p.1 mv z a hval hsoll hnk hz ht
      have hrest : ∀ q ∈ rest, ist_ungueltig q.2 = false ∧
          soll_normal_alarm s q.2 = true ∧ ist_co2_kritisch s q.2 = false ∧
          q.1 ≤ ({ z with normal_alarm_zaehler := z.normal_alarm_zaehler + 1 } :
            AlarmZustand).normal_alarm_sperre_bis := by
        intro q hq
        simpa using hin q (List.mem_cons_of_mem p hq)
      have ihr := ih { z with normal_alarm_zaehler := z.normal_alarm_zaehler + 1 }
        (by simpa using hz) hrest
      refine ⟨?_, ?_, ?_, ?_⟩
      · simpa [tick_lauf, hstep] using ihr.1
      · simpa [tick_lauf, hstep] using ihr.2.1
      · simpa [tick_lauf, hstep] using ihr.2.2.1
      · intro o ho
        simp only [tick_lauf, hstep] at ho
        rcases List.mem_cons.mp ho with h | h
        · subst h
          simp [keineAusgabe]
        · exact ihr.2.2.2 o h

/-- C2: with the critical latch clear, one exceeding tick from strike count 0
never fires (the counter only becomes 1 < 2); a second consecutive exceeding
tick at a time past the cooldown fires exactly once — buzzer pulse, servo
wave, display wake — re-arms the cooldown to `now + COOLDOWN` and resets the
counter to 0; and afterwards any run of exceeding ticks at times inside the
new window fires nothing. -/
theorem C2_entprellung_und_cooldown
    (s : Schwellwerte) (m : Messwerte) (t1 t2 sper0 : Int) (mv : Bool)
    (a : AktorZustand) (rest : List (Int × Messwerte))
    (hval : ist_ungueltig m = false)
    (hsoll : soll_normal_alarm s m = true)
    (hnk : ist_co2_kritisch s m = false)
    (hmute : a.ist_stummgeschaltet = false)
    (hdauer : a.summer_ist_dauerhaft_an = false)
    (hcool : t2 > sper0)
    (hrest : ∀ p ∈ rest, ist_ungueltig p.2 = false ∧
      soll_normal_alarm s p.2 = true ∧ ist_co2_kritisch s p.2 = false ∧
      p.1 ≤ t2 + NORMAL_ALARM_SPERRE_SEK) :
    (tick s m t1 mv ⟨false, sper0, 0⟩ a).2.2.puls_aufgerufen = false ∧
    (tick s m t1 mv ⟨false, sper0, 0⟩ a).2.2.servo_gewunken = false ∧
    (tick s m t1 mv ⟨false, sper0, 0⟩ a).1 = ⟨false, sper0, 1⟩ ∧
    (tick s m t1 mv ⟨false, sper0, 0⟩ a).2.1 = a ∧
    (tick s m t2 mv ⟨false, sper0, 1⟩ a).2.2.puls_aufgerufen = true ∧
    (tick s m t2 mv ⟨false, sper0, 1⟩ a).2.2.puls_getrieben = true ∧
    (tick s m t2 mv ⟨false, sper0, 1⟩ a).2.2.servo_gewunken = true ∧
    (tick s m t2 mv ⟨false, sper0, 1⟩ a).2.2.display_geweckt = true ∧
    (tick s m t2 mv ⟨false, sper0, 1⟩ a).1 =
      ⟨false, t2 + NORMAL_ALARM_SPERRE_SEK, 0⟩ ∧
    (∀ o ∈ (tick_lauf s mv rest (tick s m t2 mv ⟨false, sper0, 1⟩ a).1
        (tick s m t2 mv ⟨false, sper0, 1⟩ a).2.1).2.2,
      o.puls_aufgerufen = false ∧ o.servo_gewunken = false) := by
  have h1 : ¬((0 : Nat) + 1 ≥ NORMAL_ALARM_AUSLOESE_ZAEHLER ∧ t1 > sper0) := by
    intro hc
    simp [NORMAL_ALARM_AUSLOESE_ZAEHLER] at hc
  have h2 : ((1 : Nat) + 1 ≥ NORMAL_ALARM_AUSLOESE_ZAEHLER ∧ t2 > sper0) := by
    exact ⟨by simp [NORMAL_ALARM_AUSLOESE_ZAEHLER], hcool⟩
  have hpuls : summer_kurz_piepen false a =
      (true, { a with summer_duty := SUMMER_DUTY_AUS }) := by
    simp [summer_kurz_piepen, hmute, hdauer]
  have htick2 : tick s m t2 mv ⟨false, sper0, 1⟩ a =
      (⟨false, t2 + NORMAL_ALARM_SPERRE_SEK, 0⟩,
       { a with summer_duty := SUMMER_DUTY_AUS },
       { puls_aufgerufen := true, puls_getrieben := true,
         servo_gewunken := true, display_geweckt := true,
         gesendet := if mv then some (baueNutzdaten s m) else none }) := by
    simp [tick, hval, kritische_phase, hnk, normale_phase, hsoll, h2, hpuls]
  refine ⟨?_, ?_, ?_, ?_, ?_, ?_, ?_, ?_, ?_, ?_⟩
  · simp [tick, hval, kritische_phase, hnk, normale_phase, hsoll, h1]
  · simp [tick, hval, kritische_phase, hnk, normale_phase, hsoll, h1]
  · simp [tick, hval, kritische_phase, hnk, normale_phase, hsoll, h1]
  · simp [tick, hval, kritische_phase, hnk, normale_phase, hsoll, h1]
  · simp [htick2]
  · simp [htick2]
  · simp [htick2]
  · simp [htick2]
  · simp [htick2]
  · rw [htick2]
    exact (tick_lauf_sperre_unterdrueckt s mv rest
      ⟨false, t2 + NORMAL_ALARM_SPERRE_SEK, 0⟩
      { a with summer_duty := SUMMER_DUTY_AUS } rfl
      (by simpa using hrest)).2.2.2

/-- Witness for C2: default thresholds, temperature 31 above its threshold,
cooldown expired at the second tick, a third exceeding tick 2 s later inside
the fresh window. -/
theorem C2_zeuge :
    (tick standardSchwellen
        { temp := 31, feuchte := 50, co2 := 1000, voc := 100 } 100 false
        ⟨false, 0, 0⟩ ⟨false, false, 0⟩).2.2.puls_aufgerufen = false ∧
    (tick standardSchwellen
        { temp := 31, feuchte := 50, co2 := 1000, voc := 100 } 102 false
        ⟨false, 0, 1⟩ ⟨false, false, 0⟩).2.2.puls_aufgerufen = true ∧
    (∀ o ∈ (tick_lauf standardSchwellen false
        [(104, { temp := 31, feuchte := 50, co2 := 1000, voc := 100 })]
        (tick standardSchwellen
          { temp := 31, feuchte := 50, co2 := 1000, voc := 100 } 102 false
          ⟨false, 0, 1⟩ ⟨false, false, 0⟩).1
        (tick standardSchwellen
          { temp := 31, feuchte := 50, co2 := 1000, voc := 100 } 102 false
          ⟨false, 0, 1⟩ ⟨false, false, 0⟩).2.1).2.2,
      o.puls_aufgerufen = false ∧ o.servo_gewunken = false) := by
  have h := C2_entprellung_und_cooldown standardSchwellen
    { temp := 31, feuchte := 50, co2 := 1000, voc := 100 } 100 102 0 false
    ⟨false, false, 0⟩
    [(104, { temp := 31, feuchte := 50, co2 := 1000, voc := 100 })]
    (by decide) (by decide) (by decide) rfl rfl (by decide)
    (by
      intro p hp
      simp only [List.mem_singleton] at hp
      subst hp
      refine ⟨by decide, by decide, by decide, by decide⟩)
  exact ⟨h.1, h.2.2.2.2.1, h.2.2.2.2.2.2.2.2.2⟩

/-- C4: on a muted device a normal-tier firing still performs the servo wave
and the full state update (cooldown re-armed, strike counter reset to 0),
but the short pulse does not drive the buzzer (the pulse call returns without
output when muted and not forced); and muting by itself immediately forces
the buzzer off. -/
theorem C4_stumm_unterdrueckt_nur_puls
    (s : Schwellwerte) (m : Messwerte) (jetzt : Int) (mv : Bool)
    (z : AlarmZustand) (a : AktorZustand)
    (hval : ist_ungueltig m = false)
    (hsoll : soll_normal_alarm s m = true)
    (hnk : ist_co2_kritisch s m = false)
    (hz : z.kritischer_alarm_aktiv = false)
    (hzae : z.normal_alarm_zaehler + 1 ≥ NORMAL_ALARM_AUSLOESE_ZAEHLER)
    (ht : jetzt > z.normal_alarm_sperre_bis)
    (hmute : a.ist_stummgeschaltet = true) :
    (tick s m jetzt mv z a).2.2.puls_aufgerufen = true ∧
    (tick s m jetzt mv z a).2.2.puls_getrieben = false ∧
    (tick s m jetzt mv z a).2.2.servo_gewunken = true ∧
    (tick s m jetzt mv z a).2.2.display_geweckt = true ∧
    (tick s m jetzt mv z a).1 =
      ⟨false, jetzt + NORMAL_ALARM_SPERRE_SEK, 0⟩ ∧
    (∀ b : AktorZustand, stumm_schalten true b =
      ⟨true, false, SUMMER_DUTY_AUS⟩) := by
  have hpuls : summer_kurz_piepen false a = (false, a) := by
    simp [summer_kurz_piepen, hmute]
  have hcond : (z.normal_alarm_zaehler + 1 ≥ NORMAL_ALARM_AUSLOESE_ZAEHLER ∧
      jetzt > z.normal_alarm_sperre_bis) := ⟨hzae, ht⟩
  refine ⟨?_, ?_, ?_, ?_, ?_, fun b => stumm_schalten_ein b⟩ <;>
    simp [tick, hval, kritische_phase, hnk, hz, normale_phase, hsoll, hcond,
      hpuls]

/-- Witness for C4: muted device, second consecutive exceeding tick with the
cooldown expired. -/
theorem C4_zeuge :
    (tick standardSchwellen
        { temp := 31, feuchte := 50, co2 := 1000, voc := 100 } 10 false
        ⟨false, 0, 1⟩ ⟨true, false, 0⟩).2.2.puls_getrieben = false ∧
    (tick standardSchwellen
        { temp := 31, feuchte := 50, co2 := 1000, voc := 100 } 10 false
        ⟨false, 0, 1⟩ ⟨true, false, 0⟩).2.2.servo_gewunken = true ∧
    stumm_schalten true ⟨false, true, 512⟩ = ⟨true, false, SUMMER_DUTY_AUS⟩ := by
  have h := C4_stumm_unterdrueckt_nur_puls standardSchwellen
    { temp := 31, feuchte := 50, co2 := 1000, voc := 100 } 10 false
    ⟨false, 0, 1⟩ ⟨true, false, 0⟩
    (by decide) (by decide) (by decide) rfl (by decide) (by decide) rfl
  exact ⟨h.2.1, h.2.2.1, h.2.2.2.2.2 ⟨false, true, 512⟩⟩

/-! Per-field acceptance semantics of a threshold update, stated from the
validation policy: each field is judged on its own (type check plus range)
and falls back to the prior value when missing or invalid. -/

/-- Independent acceptance for `schwelle_temp` (numeric, no range check). -/
def feld_temp (f : Option JWert) (alt : Rat) : Rat :=
  match alsZahl f with
  | some q => q
  | none => alt

/-- Independent acceptance for `schwelle_hum` (numeric, within `[0, 100]`). -/
def feld_hum (f : Option JWert) (alt : Rat) : Rat :=
  match alsZahl f with
  | some q => if 0 ≤ q ∧ q ≤ 100 then q else alt
  | none => alt

/-- Independent acceptance for `schwelle_CO2` (numeric, `> 0`, truncated). -/
def feld_co2 (f : Option JWert) (alt : Int) : Int :=
  match alsZahl f with
  | some q => if 0 < q then Rat.floor q else alt
  | none => alt

/-- Independent acceptance for `schwelle_VOC` (numeric, `>= 0`, truncated). -/
def feld_voc (f : Option JWert) (alt : Int) : Int :=
  match alsZahl f with
  | some q => if 0 ≤ q then Rat.floor q else alt
  | none => alt

/-- C6: a threshold update is processed field by field — each output
threshold depends only on its own incoming field and its prior value, every
valid field is accepted, every invalid or missing field keeps the prior
value, and the critical threshold is never touched.  In particular the
update `{humidity: 150, temp: 28}` on the default thresholds accepts exactly
the temperature. -/
theorem C6_schwellen_feldweise_unabhaengig :
    (∀ (n : SchwellenNachricht) (s : Schwellwerte),
      verarbeite_schwellen n s =
        { temp := feld_temp n.schwelle_temp s.temp
          feuchte := feld_hum n.schwelle_hum s.feuchte
          co2 := feld_co2 n.schwelle_CO2 s.co2
          voc := feld_voc n.schwelle_VOC s.voc
          co2_kritisch := s.co2_kritisch }) ∧
    verarbeite_schwellen
      { schwelle_temp := some (JWert.zahl 28)
        schwelle_hum := some (JWert.zahl 150)
        schwelle_CO2 := none, schwelle_VOC := none } standardSchwellen =
      { standardSchwellen with temp := 28 } := by
  constructor
  · intro n s
    obtain ⟨ft, fh, fc, fv⟩ := n
    rcases ft with _ | (⟨qt⟩ | _) <;> rcases fh with _ | (⟨qh⟩ | _) <;>
      rcases fc with _ | (⟨qc⟩ | _) <;> rcases fv with _ | (⟨qv⟩ | _) <;>
      simp [verarbeite_schwellen, alsZahl, feld_temp, feld_hum, feld_co2,
        feld_voc] <;>
      split_ifs <;> simp
  · decide

/-- A valid tick whose values are all strictly below their thresholds leaves
the startup alarm state and the actuators untouched and produces no alarm
side effect (at most a publish). -/
theorem tick_unter_schwellen
    (s : Schwellwerte) (m : Messwerte) (jetzt : Int) (mv : Bool)
    (a : AktorZustand)
    (hval : ist_ungueltig m = false)
    (ht : m.temp < s.temp) (hf : m.feuchte < s.feuchte)
    (hc : m.co2 < s.co2) (hv : m.voc < s.voc) (hk : m.co2 < s.co2_kritisch) :
    tick s m jetzt mv alarmStart a =
      (alarmStart, a,
       { keineAusgabe with
         gesendet := if mv then some (baueNutzdaten s m) else none }) := by
  have h1 : ist_temp_alarm s m = false := by
    simp [ist_temp_alarm]
    exact ht.le
  have h2 : ist_feuchte_alarm s m = false := by
    simp [ist_feuchte_alarm]
    exact hf.le
  have h3 : ist_co2_alarm s m = false := by
    simp [ist_co2_alarm]
    omega
  have h4 : ist_voc_alarm s m = false := by
    simp [ist_voc_alarm]
    omega
  have h5 : ist_co2_kritisch s m = false := by
    simp [ist_co2_kritisch]
    omega
  have hsoll : soll_normal_alarm s m = false := by
    simp [soll_normal_alarm, h1, h2, h3, h4]
  simp [tick, hval, kritische_phase, h5, normale_phase, hsoll, alarmStart,
    keineAusgabe]

/-- C7: from the startup state, a whole sequence of valid readings that all
stay strictly below every threshold never fires any alarm tier: no pulse, no
buzzer start, no wave, no display wake, the critical latch stays false, the
strike counter and the cooldown stay 0, and the actuators end unchanged. -/
theorem C7_unter_schwellen_nie_alarm
    (s : Schwellwerte) (mv : Bool) (eingaben : List (Int × Messwerte))
    (a : AktorZustand)
    (hin : ∀ p ∈ eingaben, ist_ungueltig p.2 = false ∧
      p.2.temp < s.temp ∧ p.2.feuchte < s.feuchte ∧ p.2.co2 < s.co2 ∧
      p.2.voc < s.voc ∧ p.2.co2 < s.co2_kritisch) :
    (tick_lauf s mv eingaben alarmStart a).1 = alarmStart ∧
    (tick_lauf s mv eingaben alarmStart a).2.1 = a ∧
    ∀ o ∈ (tick_lauf s mv eingaben alarmStart a).2.2,
      o.puls_aufgerufen = false ∧ o.puls_getrieben = false ∧
      o.servo_gewunken = false ∧ o.display_geweckt = false := by
  induction eingaben with
  | nil => simp [tick_lauf]
  | cons p rest ih =>
      obtain ⟨hval, ht, hf, hc, hv, hk⟩ := hin p (List.mem_cons_self p rest)
      have hstep := tick_unter_schwellen s p.2 p.1 mv a hval ht hf hc hv hk
      have ihr := ih (fun q hq => hin q (List.mem_cons_of_mem p hq))
      refine ⟨?_, ?_, ?_⟩
      · simpa [tick_lauf, hstep] using ihr.1
      · simpa [tick_lauf, hstep] using ihr.2.1
      · intro o ho
        simp only [tick_lauf, hstep] at ho
        rcases List.mem_cons.mp ho with h | h
        · subst h
          simp [keineAusgabe]
        · exact ihr.2.2 o h

/-- Witness for C7: two quiet readings under the default thresholds. -/
theorem C7_zeuge :
    (tick_lauf standardSchwellen true
      [(2, { temp := 22, feuchte := 48, co2 := 800, voc := 120 }),
       (4, { temp := 23, feuchte := 47, co2 := 820, voc := 110 })]
      alarmStart ⟨false, false, 0⟩).1 = alarmStart ∧
    (tick_lauf standardSchwellen true
      [(2, { temp := 22, feuchte := 48, co2 := 800, voc := 120 }),
       (4, { temp := 23, feuchte := 47, co2 := 820, voc := 110 })]
      alarmStart ⟨false, false, 0⟩).2.1 = ⟨false, false, 0⟩ := by
  have h := C7_unter_schwellen_nie_alarm standardSchwellen true
    [(2, { temp := 22, feuchte := 48, co2 := 800, voc := 120 }),
     (4, { temp := 23, feuchte := 47, co2 := 820, voc := 110 })]
    ⟨false, false, 0⟩
    (by
      intro p hp
      rcases List.mem_cons.mp hp with h | h
      · subst h
        refine ⟨by decide, by decide, by decide, by decide, by decide,
          by decide⟩
      · simp only [List.mem_singleton] at h
        subst h
        refine ⟨by decide, by decide, by decide, by decide, by decide,
          by decide⟩)
  exact ⟨h.1, h.2.1⟩

/-- C8 counterexample: a send failure that is not an `OSError` (for example a
serialisation error raised by `ujson.dumps`) while connected returns `False`
but leaves `mqtt_verbunden` true — `mqtt_ist_verbunden` still answers `true`
afterwards, so not every send failure drops the connection state. -/
theorem C8_gegenbeispiel :
    (mqtt_senden UebertragungsErgebnis.andererFehler
      { mqtt_verbunden := true, mqtt_client := true }).1 = false ∧
    mqtt_ist_verbunden
      (mqtt_senden UebertragungsErgebnis.andererFehler
        { mqtt_verbunden := true, mqtt_client := true }).2 = true := by
  decide

/-- C8 (amended): while connected, an `OSError` failure of a send or of the
inbound poll drops the connection state (and the client) and the failed send
returns `False`; a non-`OSError` failure also makes the send return `False`
but leaves the connection state unchanged (the poll likewise); both handlers
swallow the exception.  A send attempted while disconnected returns `False`
and changes nothing. -/
theorem C8_verbindungsabbruch
    (s : MqttZustand)
    (hv : s.mqtt_verbunden = true) (hc : s.mqtt_client = true) :
    (mqtt_senden UebertragungsErgebnis.osFehler s =
      (false, { mqtt_verbunden := false, mqtt_client := false })) ∧
    (mqtt_nachrichten_pruefen UebertragungsErgebnis.osFehler s =
      { mqtt_verbunden := false, mqtt_client := false }) ∧
    (mqtt_senden UebertragungsErgebnis.andererFehler s = (false, s)) ∧
    (mqtt_nachrichten_pruefen UebertragungsErgebnis.andererFehler s = s) ∧
    (∀ (t : MqttZustand) (erg : UebertragungsErgebnis),
      t.mqtt_verbunden = false → mqtt_senden erg t = (false, t)) := by
  refine ⟨?_, ?_, ?_, ?_, ?_⟩
  · simp [mqtt_senden, hv, hc]
  · simp [mqtt_nachrichten_pruefen, hv, hc]
  · simp [mqtt_senden, hv, hc]
  · simp [mqtt_nachrichten_pruefen, hv, hc]
  · intro t erg htv
    simp [mqtt_senden, htv]

/-- Witness for C8 (amended) at the connected state. -/
theorem C8_zeuge :
    mqtt_senden UebertragungsErgebnis.osFehler
      { mqtt_verbunden := true, mqtt_client := true } =
      (false, { mqtt_verbunden := false, mqtt_client := false }) ∧
    mqtt_senden UebertragungsErgebnis.ok
      { mqtt_verbunden := false, mqtt_client := false } =
      (false, { mqtt_verbunden := false, mqtt_client := false }) := by
  have h := C8_verbindungsabbruch
    { mqtt_verbunden := true, mqtt_client := true } rfl rfl
  exact ⟨h.1, h.2.2.2.2 { mqtt_verbunden := false, mqtt_client := false }
    UebertragungsErgebnis.ok rfl⟩

/-- C9: the remote command `MUTE`/`ON` (and likewise `BUZZER`/`OFF`) clears
the `critical_active` latch in addition to muting respectively stopping the
buzzer, and on the next valid tick whose CO2 still exceeds the critical
threshold the critical tier is entered afresh (buzzer forced on, counter and
cooldown zeroed, display woken). -/
theorem C9_fernbefehl_loescht_kritisch
    (kritisch : Bool) (a : AktorZustand)
    (s : Schwellwerte) (m : Messwerte) (jetzt : Int) (mv : Bool)
    (b : AktorZustand)
    (hval : ist_ungueltig m = false)
    (hcrit : m.co2 > s.co2_kritisch) :
    (verarbeite_steuerung
        { command := some "MUTE", status := some "ON", action := none }
        kritisch a =
      (false, ⟨true, false, SUMMER_DUTY_AUS⟩, false)) ∧
    (verarbeite_steuerung
        { command := some "BUZZER", status := some "OFF", action := none }
        kritisch a =
      (false, ⟨a.ist_stummgeschaltet, false, SUMMER_DUTY_AUS⟩, false)) ∧
    ((tick s m jetzt mv alarmStart b).1 =
      ⟨true, 0, 0⟩ ∧
     (tick s m jetzt mv alarmStart b).2.1.summer_duty = SUMMER_DUTY_AN ∧
     (tick s m jetzt mv alarmStart b).2.1.summer_ist_dauerhaft_an = true ∧
     (tick s m jetzt mv alarmStart b).2.2.display_geweckt = true) := by
  have hk : ist_co2_kritisch s m = true := by
    simp [ist_co2_kritisch]
    omega
  refine ⟨?_, ?_, ?_⟩
  · simp [verarbeite_steuerung, stumm_schalten, summer_stoppen]
  · simp [verarbeite_steuerung, summer_stoppen]
  · constructor
    · simp [tick, hval, kritische_phase, hk, normale_phase, alarmStart,
        summer_starten, summer_stoppen]
    · refine ⟨?_, ?_, ?_⟩ <;>
        simp [tick, hval, kritische_phase, hk, normale_phase, alarmStart,
          summer_starten, summer_stoppen]

/-- Witness for C9: muted device, CO2 at 2600 over the critical 2500. -/
theorem C9_zeuge :
    verarbeite_steuerung
        { command := some "MUTE", status := some "ON", action := none }
        true ⟨false, true, 512⟩ =
      (false, ⟨true, false, SUMMER_DUTY_AUS⟩, false) ∧
    (tick standardSchwellen
        { temp := 20, feuchte := 50, co2 := 2600, voc := 100 } 9 false
        alarmStart ⟨true, false, 0⟩).1 = ⟨true, 0, 0⟩ := by
  have h := C9_fernbefehl_loescht_kritisch true ⟨false, true, 512⟩
    standardSchwellen { temp := 20, feuchte := 50, co2 := 2600, voc := 100 }
    9 false ⟨true, false, 0⟩ (by decide) (by decide)
  exact ⟨h.1, h.2.2.1⟩

/-- The cache invariant of the CCS811 channel: CO2 within `[400, 8000]`,
VOC non-negative. -/
def CcsGueltig (st : CcsSpeicher) : Prop :=
  400 ≤ st.letzter_co2_wert ∧ st.letzter_co2_wert ≤ 8000 ∧
    0 ≤ st.letzter_voc_wert

/-- One update opportunity preserves the cache invariant. -/
theorem aktualisiere_ccs_daten_gueltig (probe : Option (Int × Int))
    (st : CcsSpeicher) (h : CcsGueltig st) :
    CcsGueltig (aktualisiere_ccs_daten probe st) := by
  rcases probe with _ | ⟨c, v⟩
  · exact h
  · by_cases hr : 400 ≤ c ∧ c ≤ 8000 ∧ 0 ≤ v
    · simp only [aktualisiere_ccs_daten, if_pos hr]
      exact hr
    · simp only [aktualisiere_ccs_daten, if_neg hr]
      exact h

/-- C10: starting from the initial cache `(400, 0)`, after any sequence of
CCS811 update opportunities `lese_co2` returns a value in `[400, 8000]` and
`lese_voc` a non-negative value — the sentinel-invalid range is unreachable —
and an out-of-range sample leaves both cached values unchanged. -/
theorem C10_ccs_werte_im_bereich
    (probes : List (Option (Int × Int))) (probe : Option (Int × Int)) :
    (400 ≤ (lese_co2 probe (ccs_lauf probes ccsStart)).1 ∧
     (lese_co2 probe (ccs_lauf probes ccsStart)).1 ≤ 8000 ∧
     0 ≤ lese_voc (lese_co2 probe (ccs_lauf probes ccsStart)).2) ∧
    (∀ (c v : Int) (st : CcsSpeicher), ¬(400 ≤ c ∧ c ≤ 8000 ∧ 0 ≤ v) →
      aktualisiere_ccs_daten (some (c, v)) st = st) := by
  constructor
  · have hlauf : ∀ (ps : List (Option (Int × Int))) (st : CcsSpeicher),
        CcsGueltig st → CcsGueltig (ccs_lauf ps st) := by
      intro ps
      induction ps with
      | nil => intro st h; simp only [ccs_lauf]; exact h
      | cons p rest ih =>
          intro st h
          exact ih _ (aktualisiere_ccs_daten_gueltig p st h)
    have hstart : CcsGueltig ccsStart := by
      refine ⟨by decide, by decide, by decide⟩
    have hend := aktualisiere_ccs_daten_gueltig probe _
      (hlauf probes ccsStart hstart)
    exact ⟨hend.1, hend.2.1, by simpa [lese_co2, lese_voc] using hend.2.2⟩
  · intro c v st hr
    simp [aktualisiere_ccs_daten, hr]

/-- Witness for C10: two in-range samples, one junk sample, one read. -/
theorem C10_zeuge :
    (400 ≤ (lese_co2 (some (700, 12))
        (ccs_lauf [some (500, 3), none, some (9000, 1)] ccsStart)).1 ∧
     (lese_co2 (some (700, 12))
        (ccs_lauf [some (500, 3), none, some (9000, 1)] ccsStart)).1 ≤ 8000) ∧
    aktualisiere_ccs_daten (some (9000, 1))
      { letzter_co2_wert := 500, letzter_voc_wert := 3 } =
      { letzter_co2_wert := 500, letzter_voc_wert := 3 } := by
  have h := C10_ccs_werte_im_bereich [some (500, 3), none, some (9000, 1)]
    (some (700, 12))
  exact ⟨⟨h.1.1, h.1.2.1⟩,
    h.2 9000 1 { letzter_co2_wert := 500, letzter_voc_wert := 3 } (by decide)⟩

end NeverYawn
